import Mathlib

/-!
Verification of the bootstrap launcher `run_app.py` of the
Linux-ComfyUI-Launcher repository.

The launcher is a 16-line script:

  project_root = Path(__file__).parent
  sys.path.insert(0, str(project_root))
  from backend.main import main
  if __name__ == "__main__":
      main()

We embed it shallowly: filesystem paths become `PyPath` (an absolute flag
plus a component list, following `pathlib` semantics), the process-wide
module search path becomes a `List PyPath` inside a `ProcState`, the
`from backend.main import main` statement becomes a function returning
`Except PyError PyPath` (the root under which the module was found), and
the whole module-level execution becomes `runLauncher`, parameterised by
the interpreter-supplied `__file__` value, the module's `__name__`, and
the (external, unspecified) behavior of `backend.main.main`.
-/

namespace RunApp

/-- A `pathlib.Path` value: whether it is absolute, and its parts.
`Path(".")` is `⟨false, []⟩`; `Path("/")` is `⟨true, []⟩`. -/
structure PyPath where
  absolute : Bool
  components : List String
deriving DecidableEq, Repr

/-- `Path.parent`: drop the last component.  As in `pathlib`,
the parent of `.` is `.` and the parent of `/` is `/`. -/
def PyPath.parent (p : PyPath) : PyPath :=
  ⟨p.absolute, p.components.dropLast⟩

/-- `project_root = Path(__file__).parent` (line 9 of `run_app.py`). -/
def project_root (file : PyPath) : PyPath :=
  file.parent

/-- Interpretation of a module-search-path entry at import time: an
absolute entry denotes itself, a relative entry is interpreted relative
to the process's current working directory. -/
def resolveAgainst (cwd p : PyPath) : PyPath :=
  if p.absolute then p else ⟨cwd.absolute, cwd.components ++ p.components⟩

/-- The part of the filesystem the launcher's import can observe: which
root directories contain a `backend` package with a `backend/main.py`
module, and whether that module defines a symbol named `main`. -/
structure FileSystem where
  hasBackendMain : PyPath → Bool
  definesMain : PyPath → Bool

/-- The errors the launcher can leave unhandled.  `moduleNotFound` and
`cannotImportName` model Python's `ModuleNotFoundError` and
`ImportError: cannot import name ...`, both of class `ImportError`;
`attributeError` models `AttributeError`, a distinct class; `userError`
stands for an arbitrary error raised inside the invoked entry point. -/
inductive PyError where
  | moduleNotFound (modName : String)
  | cannotImportName (symbol modName : String)
  | attributeError (symbol modName : String)
  | userError (code : Nat)
deriving DecidableEq, Repr

/-- Whether the error's Python class is `ImportError` (or a subclass). -/
def PyError.isImportError : PyError → Bool
  | .moduleNotFound _ => true
  | .cannotImportName _ _ => true
  | _ => false

/-- Whether the error's Python class is `AttributeError`. -/
def PyError.isAttributeError : PyError → Bool
  | .attributeError _ _ => true
  | _ => false

/-- Module resolution for `backend.main`: walk the search path in order
and return the first entry (interpreted against the working directory)
under which `backend/main.py` exists. -/
def findBackendMain (fs : FileSystem) (cwd : PyPath) : List PyPath → Option PyPath
  | [] => none
  | e :: rest =>
    if fs.hasBackendMain (resolveAgainst cwd e) then some (resolveAgainst cwd e)
    else findBackendMain fs cwd rest

/-- `from backend.main import main` (line 13 of `run_app.py`): resolve
the module along the search path, then look the symbol up in it.  A
missing module raises `ModuleNotFoundError`; a present module without
the symbol raises `ImportError: cannot import name 'main'`.  On success
we return the root under which the module was found (identifying which
`main` was bound). -/
def fromBackendMainImportMain (fs : FileSystem) (cwd : PyPath)
    (sysPath : List PyPath) : Except PyError PyPath :=
  match findBackendMain fs cwd sysPath with
  | none => .error (.moduleNotFound "backend.main")
  | some root =>
    if fs.definesMain root then .ok root
    else .error (.cannotImportName "main" "backend.main")

/-- Python's `list.insert(i, x)`: insert before position `i`
(clamped to the list's length). -/
def listInsert {α : Type} (i : Nat) (x : α) (l : List α) : List α :=
  l.take i ++ x :: l.drop i

/-- The process state the launcher touches: the module search path
`sys.path`, plus the rest of the process state it can read but must not
modify (working directory, filesystem). -/
structure ProcState where
  sysPath : List PyPath
  cwd : PyPath
  fs : FileSystem

/-- `sys.path.insert(0, str(project_root))` (line 10 of `run_app.py`),
as a transformation of the process state. -/
def registerSearchPath (root : PyPath) (s : ProcState) : ProcState :=
  { s with sysPath := listInsert 0 root s.sysPath }

/-- `registerSearchPath` applied `n` times with the same root. -/
def registerN : Nat → PyPath → ProcState → ProcState
  | 0, _, s => s
  | n + 1, root, s => registerSearchPath root (registerN n root s)

/-- The observable steps of the launcher's execution. -/
inductive Event where
  | registered (root : PyPath)
  | imported (root : PyPath)
  | called
deriving DecidableEq, Repr

/-- Result of executing the launcher module: the final process state,
the trace of steps that happened, and the outcome (`ok` or the
unhandled error that propagated out). -/
structure LaunchResult where
  finalState : ProcState
  trace : List Event
  outcome : Except PyError Unit

/-- Executing `run_app.py` top to bottom, given the interpreter-supplied
`__file__` value, the module's `__name__`, and the behavior of the
(external) `backend.main.main` found under a given root: compute
`project_root`, insert it at position 0 of `sys.path`, run the
`from backend.main import main` statement, and call `main()` exactly
when `__name__ == "__main__"`.  There is no handler anywhere, so a
failing step ends execution with that error as the outcome. -/
def runLauncher (file : PyPath) (moduleName : String)
    (mainBehavior : PyPath → Except PyError Unit) (s : ProcState) : LaunchResult :=
  let root := project_root file
  let s1 := registerSearchPath root s
  match fromBackendMainImportMain s1.fs s1.cwd s1.sysPath with
  | .error e => ⟨s1, [.registered root], .error e⟩
  | .ok modRoot =>
    if moduleName = "__main__" then
      ⟨s1, [.registered root, .imported modRoot, .called], mainBehavior modRoot⟩
    else
      ⟨s1, [.registered root, .imported modRoot], .ok ()⟩

/-- The result of the launcher's import statement as a function of the
working directory (the quantity whose working-directory independence
the spec asserts). -/
def importAfterLaunch (file : PyPath) (fs : FileSystem)
    (sysPath0 : List PyPath) (cwd : PyPath) : Except PyError PyPath :=
  fromBackendMainImportMain fs cwd (listInsert 0 (project_root file) sysPath0)

end RunApp

namespace RunApp

/-! Concrete fixtures for counterexamples and witnesses. -/

/-- The absolute directory `/proj`. -/
def dirProj : PyPath := ⟨true, ["proj"]⟩

/-- The absolute directory `/tmpdir`. -/
def dirTmp : PyPath := ⟨true, ["tmpdir"]⟩

/-- The launcher invoked through the absolute path `/proj/run_app.py`. -/
def fileProj : PyPath := ⟨true, ["proj", "run_app.py"]⟩

/-- The launcher invoked through the relative path `run_app.py`. -/
def fileRel : PyPath := ⟨false, ["run_app.py"]⟩

/-- A filesystem in which exactly `/proj` contains `backend/main.py`,
and that module defines `main`. -/
def fsProj : FileSystem :=
  ⟨fun p => decide (p = dirProj), fun _ => true⟩

/-- A filesystem with no `backend/main.py` anywhere. -/
def fsNone : FileSystem :=
  ⟨fun _ => false, fun _ => false⟩

/-- A filesystem in which `/proj/backend/main.py` exists but defines
no symbol named `main`. -/
def fsNoMain : FileSystem :=
  ⟨fun p => decide (p = dirProj), fun _ => false⟩

/-- An entry point that returns normally. -/
def mbOk : PyPath → Except PyError Unit := fun _ => .ok ()

/-- An entry point that raises an error. -/
def mbFail : PyPath → Except PyError Unit := fun _ => .error (.userError 3)

/-- Process started from `/proj` with an initially empty search path. -/
def stateProj : ProcState := ⟨[], dirProj, fsProj⟩

/-- Process started from `/tmpdir` with an initially empty search path. -/
def stateTmpCwd : ProcState := ⟨[], dirTmp, fsProj⟩

/-- Process on the backend-less filesystem. -/
def stateNone : ProcState := ⟨[], dirTmp, fsNone⟩

/-- Process on the filesystem whose `backend.main` lacks `main`. -/
def stateNoMain : ProcState := ⟨[], dirTmp, fsNoMain⟩

/-- Process whose search path already holds one entry. -/
def stateDup : ProcState := ⟨[dirTmp], dirTmp, fsProj⟩

/-! Helper lemmas about the embedded operations. -/

/-- Registration leaves the filesystem view unchanged. -/
@[simp] theorem registerSearchPath_fs (root : PyPath) (s : ProcState) :
    (registerSearchPath root s).fs = s.fs := rfl

/-- Registration leaves the working directory unchanged. -/
@[simp] theorem registerSearchPath_cwd (root : PyPath) (s : ProcState) :
    (registerSearchPath root s).cwd = s.cwd := rfl

/-- Inserting at position 0 is exactly a cons. -/
@[simp] theorem registerSearchPath_sysPath (root : PyPath) (s : ProcState) :
    (registerSearchPath root s).sysPath = root :: s.sysPath := rfl

/-- Module search skips an immediate duplicate entry. -/
theorem findBackendMain_cons_cons (fs : FileSystem) (cwd x : PyPath)
    (l : List PyPath) :
    findBackendMain fs cwd (x :: x :: l) = findBackendMain fs cwd (x :: l) := by
  by_cases h : fs.hasBackendMain (resolveAgainst cwd x) <;>
    simp [findBackendMain, h]

/-- Iterated registration prepends a block of duplicates. -/
theorem registerN_sysPath (n : Nat) (root : PyPath) (s : ProcState) :
    (registerN n root s).sysPath = List.replicate n root ++ s.sysPath := by
  induction n with
  | zero => rfl
  | succ n ih => simp [registerN, registerSearchPath_sysPath, ih, List.replicate_succ]

/-- A block of duplicates at the front of the search path resolves like a
single copy. -/
theorem findBackendMain_replicate (fs : FileSystem) (cwd root : PyPath)
    (sp : List PyPath) (n : Nat) :
    findBackendMain fs cwd (List.replicate (n + 1) root ++ sp) =
      findBackendMain fs cwd (root :: sp) := by
  induction n with
  | zero => rfl
  | succ n ih =>
    have h2 : List.replicate (n + 1) root ++ sp = root :: (List.replicate n root ++ sp) := by
      simp [List.replicate_succ]
    have h1 : List.replicate (n + 1 + 1) root ++ sp =
        root :: root :: (List.replicate n root ++ sp) := by
      simp [List.replicate_succ]
    rw [h1, findBackendMain_cons_cons, ← h2, ih]

end RunApp

namespace RunApp

/-- C2 counterexample: when the interpreter supplies the launcher's own
file path as the relative path `run_app.py`, the computed root directory
`Path(__file__).parent` is the relative path `.`, not an absolute path,
because line 9 of `run_app.py` never absolutises it. -/
theorem c2_counterexample_relative_file_gives_relative_root :
    ¬ ((project_root fileRel).absolute = true) := by decide

/-- C2 (amended): the resolve-root-directory operation preserves the
absoluteness of the launcher's own file path: the registered root is
absolute exactly when the interpreter-supplied file path is absolute
(which CPython guarantees for a top-level script since 3.9), and
relative when that path is relative. -/
theorem c2_project_root_absolute_iff_file_absolute (file : PyPath) :
    (project_root file).absolute = file.absolute := rfl

/-- C1 counterexample: with the launcher's file path given relatively as
`run_app.py`, the registered root is the relative `.`, and the import of
`backend.main` succeeds from working directory `/proj` but fails from
working directory `/tmpdir`: resolution depends on the caller's working
directory. -/
theorem c1_counterexample_import_depends_on_cwd :
    importAfterLaunch fileRel fsProj [] dirProj ≠
      importAfterLaunch fileRel fsProj [] dirTmp := by
  intro h
  have h1 : importAfterLaunch fileRel fsProj [] dirProj = .ok dirProj := rfl
  have h2 : importAfterLaunch fileRel fsProj [] dirTmp =
      .error (.moduleNotFound "backend.main") := rfl
  rw [h1, h2] at h
  exact Except.noConfusion h

/-- C1 (amended): whenever the interpreter-supplied launcher file path is
absolute and `backend/main.py` exists under the launcher's own directory,
the import of the entry point resolves identically from every working
directory: it is determined by the launcher file's location alone. -/
theorem c1_import_cwd_independent_for_absolute_file
    (file : PyPath) (fs : FileSystem) (sysPath0 : List PyPath)
    (habs : file.absolute = true)
    (hback : fs.hasBackendMain (project_root file) = true)
    (cwd1 cwd2 : PyPath) :
    importAfterLaunch file fs sysPath0 cwd1 =
      importAfterLaunch file fs sysPath0 cwd2 := by
  have hr : ∀ cwd : PyPath, resolveAgainst cwd (project_root file) = project_root file := by
    intro cwd
    unfold resolveAgainst
    simp [project_root, PyPath.parent, habs]
  unfold importAfterLaunch fromBackendMainImportMain listInsert
  simp [findBackendMain, hr, hback]

/-- C1 witness: a concrete absolute launcher path `/proj/run_app.py` with
`/proj/backend/main.py` present: the import result from `/proj` equals
the import result from `/tmpdir`. -/
theorem c1_witness :
    importAfterLaunch fileProj fsProj [] dirProj =
      importAfterLaunch fileProj fsProj [] dirTmp :=
  c1_import_cwd_independent_for_absolute_file fileProj fsProj [] rfl (by decide)
    dirProj dirTmp

/-- C5: the registration step inserts the resolved root at index 0 of the
search path: the result is exactly the root consed onto the previous
path, every previous entry reappears one index later, and module
resolution consults the new root before any previous entry. -/
theorem c5_register_inserts_at_highest_priority (root : PyPath) (s : ProcState) :
    (registerSearchPath root s).sysPath = root :: s.sysPath ∧
    (∀ i : Nat, (registerSearchPath root s).sysPath[i + 1]? = s.sysPath[i]?) ∧
    (∀ (fs : FileSystem) (cwd : PyPath),
      findBackendMain fs cwd (registerSearchPath root s).sysPath =
        if fs.hasBackendMain (resolveAgainst cwd root) then
          some (resolveAgainst cwd root)
        else findBackendMain fs cwd s.sysPath) := by
  refine ⟨rfl, fun i => ?_, fun fs cwd => ?_⟩
  · simp
  · rfl

/-- C10: the registration step is purely a prepend and frames everything
else: the path grows by exactly one, every previous entry is still
present at its old index shifted by one (hence in the original relative
order, nothing removed, replaced, or reordered), and no other process
state (working directory, filesystem) is modified. -/
theorem c10_register_is_pure_prepend_frame (root : PyPath) (s : ProcState) :
    (registerSearchPath root s).sysPath.length = s.sysPath.length + 1 ∧
    (∀ i : Nat, (registerSearchPath root s).sysPath[i + 1]? = s.sysPath[i]?) ∧
    (registerSearchPath root s).cwd = s.cwd ∧
    (registerSearchPath root s).fs = s.fs := by
  refine ⟨by simp, fun i => by simp, rfl, rfl⟩

end RunApp

namespace RunApp

/-- Unfolding the launcher: registration happens first, the import reads
the registered path, and the call is guarded by the module name. -/
theorem runLauncher_eq (file : PyPath) (moduleName : String)
    (mb : PyPath → Except PyError Unit) (s : ProcState) :
    runLauncher file moduleName mb s =
      match fromBackendMainImportMain s.fs s.cwd
          (registerSearchPath (project_root file) s).sysPath with
      | .error e => ⟨registerSearchPath (project_root file) s,
          [.registered (project_root file)], .error e⟩
      | .ok modRoot =>
        if moduleName = "__main__" then
          ⟨registerSearchPath (project_root file) s,
            [.registered (project_root file), .imported modRoot, .called],
            mb modRoot⟩
        else
          ⟨registerSearchPath (project_root file) s,
            [.registered (project_root file), .imported modRoot], .ok ()⟩ := rfl

/-- C3 counterexample: loading the launcher as a library (module name
other than `__main__`) still performs the import of `backend.main`: the
`from backend.main import main` statement at line 13 is module-level
code, outside the guard, so the import step appears in the trace. -/
theorem c3_counterexample_import_occurs_when_loaded_as_library :
    Event.imported dirProj ∈
      (runLauncher fileProj "launcher_lib" mbOk stateProj).trace := by decide

/-- C3 (amended): only the call of `main` is guarded by the top-level
condition; the import of `backend.main` is unconditional module-level
code and occurs also when the launcher is loaded as a library.  When the
module name is not `__main__` and the import succeeds, the trace holds
the import step but no call step. -/
theorem c3_call_guarded_but_import_unconditional
    (file : PyPath) (moduleName : String) (mb : PyPath → Except PyError Unit)
    (s : ProcState) (mr : PyPath)
    (hname : moduleName ≠ "__main__")
    (himp : fromBackendMainImportMain s.fs s.cwd
      (registerSearchPath (project_root file) s).sysPath = .ok mr) :
    Event.called ∉ (runLauncher file moduleName mb s).trace ∧
    Event.imported mr ∈ (runLauncher file moduleName mb s).trace := by
  have htrace : (runLauncher file moduleName mb s).trace =
      [Event.registered (project_root file), Event.imported mr] := by
    rw [runLauncher_eq, himp]
    simp [hname]
  rw [htrace]
  refine ⟨?_, by simp⟩
  simp

/-- C3 witness: concrete library-mode run whose import succeeded and
whose entry point was not called. -/
theorem c3_witness :
    Event.called ∉ (runLauncher fileProj "launcher_pkg" mbOk stateProj).trace ∧
    Event.imported dirProj ∈
      (runLauncher fileProj "launcher_pkg" mbOk stateProj).trace :=
  c3_call_guarded_but_import_unconditional fileProj "launcher_pkg" mbOk stateProj
    dirProj (by decide) rfl

/-- C4: whenever the launcher's module name is not `__main__` (it was
imported as a library component, not run as the top-level program), the
call of `main()` never happens: no call step appears in the trace, for
any file path, entry-point behavior, and process state. -/
theorem c4_import_as_library_never_calls_main
    (file : PyPath) (moduleName : String) (mb : PyPath → Except PyError Unit)
    (s : ProcState) (hname : moduleName ≠ "__main__") :
    Event.called ∉ (runLauncher file moduleName mb s).trace := by
  rw [runLauncher_eq]
  cases hres : fromBackendMainImportMain s.fs s.cwd
      (registerSearchPath (project_root file) s).sysPath with
  | error e => simp
  | ok mr => simp [hname]

/-- C4 witness: a concrete library-mode load performs no call. -/
theorem c4_witness :
    Event.called ∉ (runLauncher fileProj "not_top_level" mbOk stateProj).trace :=
  c4_import_as_library_never_calls_main fileProj "not_top_level" mbOk stateProj
    (by decide)

/-- C6: when the launcher runs as the top-level program and the import
succeeds, the trace is exactly registration, then import, then call —
so registration completes before the import and before the invocation,
and the entry point is invoked exactly once. -/
theorem c6_invocation_once_after_registration_and_import
    (file : PyPath) (mb : PyPath → Except PyError Unit) (s : ProcState)
    (mr : PyPath)
    (himp : fromBackendMainImportMain s.fs s.cwd
      (registerSearchPath (project_root file) s).sysPath = .ok mr) :
    (runLauncher file "__main__" mb s).trace =
      [Event.registered (project_root file), Event.imported mr, Event.called] ∧
    (runLauncher file "__main__" mb s).trace.count Event.called = 1 := by
  have htrace : (runLauncher file "__main__" mb s).trace =
      [Event.registered (project_root file), Event.imported mr, Event.called] := by
    rw [runLauncher_eq, himp]
    simp
  exact ⟨htrace, by rw [htrace]; rfl⟩

/-- C6 witness: a concrete top-level run from `/tmpdir`. -/
theorem c6_witness :
    (runLauncher fileProj "__main__" mbOk stateTmpCwd).trace =
      [Event.registered (project_root fileProj), Event.imported dirProj,
        Event.called] ∧
    (runLauncher fileProj "__main__" mbOk stateTmpCwd).trace.count
      Event.called = 1 :=
  c6_invocation_once_after_registration_and_import fileProj mbOk stateTmpCwd
    dirProj rfl

/-- C7: the launcher handles nothing: an error raised by the import
statement becomes the launcher's outcome unchanged, and an error raised
by the invoked entry point (in top-level mode) becomes the launcher's
outcome unchanged — no recovery, no retry, no translation. -/
theorem c7_errors_propagate_unhandled
    (file : PyPath) (moduleName : String) (mb : PyPath → Except PyError Unit)
    (s : ProcState) :
    (∀ e : PyError,
      fromBackendMainImportMain s.fs s.cwd
        (registerSearchPath (project_root file) s).sysPath = .error e →
      (runLauncher file moduleName mb s).outcome = .error e) ∧
    (∀ (mr : PyPath) (e : PyError),
      fromBackendMainImportMain s.fs s.cwd
        (registerSearchPath (project_root file) s).sysPath = .ok mr →
      moduleName = "__main__" →
      mb mr = .error e →
      (runLauncher file moduleName mb s).outcome = .error e) := by
  constructor
  · intro e he
    rw [runLauncher_eq, he]
  · intro mr e himp hname hmb
    rw [runLauncher_eq, himp]
    simp [hname, hmb]

/-- C7 witness: a missing backend propagates `ModuleNotFoundError`
unchanged, and an error raised inside `main()` propagates unchanged. -/
theorem c7_witness :
    (runLauncher fileProj "__main__" mbOk stateNone).outcome =
      .error (.moduleNotFound "backend.main") ∧
    (runLauncher fileProj "__main__" mbFail stateProj).outcome =
      .error (.userError 3) :=
  ⟨(c7_errors_propagate_unhandled fileProj "__main__" mbOk stateNone).1
      (.moduleNotFound "backend.main") rfl,
    (c7_errors_propagate_unhandled fileProj "__main__" mbFail stateProj).2
      dirProj (.userError 3) rfl rfl rfl⟩

end RunApp

namespace RunApp

/-- C8 counterexample: with `/proj/backend/main.py` present but defining
no `main` symbol, the launcher terminates with
`ImportError: cannot import name 'main' from 'backend.main'` — an error
of the module-import class, not of the attribute-lookup class, because
line 13 uses a `from ... import ...` statement. -/
theorem c8_counterexample_error_class_is_import_not_attribute :
    (runLauncher fileProj "__main__" mbOk stateNoMain).outcome =
      .error (.cannotImportName "main" "backend.main") ∧
    PyError.isAttributeError (.cannotImportName "main" "backend.main") = false :=
  ⟨rfl, rfl⟩

/-- C8 (amended): if the module `backend.main` is found on the search
path but defines no symbol named `main`, running the launcher as the
top-level program terminates with the unhandled error
`cannot import name 'main' from 'backend.main'`, whose class is the
module-import failure (`ImportError`), not the attribute-lookup failure
(`AttributeError`). -/
theorem c8_missing_symbol_terminates_with_cannot_import_name
    (file : PyPath) (mb : PyPath → Except PyError Unit) (s : ProcState)
    (r : PyPath)
    (hfind : findBackendMain s.fs s.cwd
      (registerSearchPath (project_root file) s).sysPath = some r)
    (hnomain : s.fs.definesMain r = false) :
    (runLauncher file "__main__" mb s).outcome =
      .error (.cannotImportName "main" "backend.main") ∧
    PyError.isImportError (.cannotImportName "main" "backend.main") = true ∧
    PyError.isAttributeError (.cannotImportName "main" "backend.main") = false := by
  have himp : fromBackendMainImportMain s.fs s.cwd
      (registerSearchPath (project_root file) s).sysPath =
      .error (.cannotImportName "main" "backend.main") := by
    unfold fromBackendMainImportMain
    rw [hfind]
    simp [hnomain]
  refine ⟨?_, rfl, rfl⟩
  rw [runLauncher_eq, himp]

/-- C8 witness: the concrete symbol-less backend. -/
theorem c8_witness :
    (runLauncher fileProj "__main__" mbOk stateNoMain).outcome =
      .error (.cannotImportName "main" "backend.main") ∧
    PyError.isImportError (.cannotImportName "main" "backend.main") = true ∧
    PyError.isAttributeError (.cannotImportName "main" "backend.main") = false :=
  c8_missing_symbol_terminates_with_cannot_import_name fileProj mbOk stateNoMain
    dirProj rfl rfl

/-- C9: the registration step is not idempotent — applying it `n ≥ 2`
times with the same root to a path not yet holding that root leaves `n`
duplicate copies of the root on the search path — yet module resolution
gives exactly the same result as after a single application, for every
filesystem and working directory. -/
theorem c9_register_not_idempotent_resolution_stable
    (n : Nat) (root : PyPath) (s : ProcState)
    (hn : 2 ≤ n) (hmem : root ∉ s.sysPath) :
    (registerN n root s).sysPath.count root = n ∧
    ∀ (fs : FileSystem) (cwd : PyPath),
      findBackendMain fs cwd (registerN n root s).sysPath =
        findBackendMain fs cwd (registerN 1 root s).sysPath := by
  obtain ⟨k, rfl⟩ : ∃ k, n = k + 1 := ⟨n - 1, by omega⟩
  constructor
  · rw [registerN_sysPath, List.count_append, List.count_replicate_self]
    simp [List.count_eq_zero.mpr hmem]
  · intro fs cwd
    rw [registerN_sysPath, findBackendMain_replicate]
    rfl

/-- C9 witness: two registrations of `/proj` onto a path holding one
other entry leave two copies, and resolution equals the
single-registration resolution. -/
theorem c9_witness :
    (registerN 2 dirProj stateDup).sysPath.count dirProj = 2 ∧
    findBackendMain fsProj dirTmp (registerN 2 dirProj stateDup).sysPath =
      findBackendMain fsProj dirTmp (registerN 1 dirProj stateDup).sysPath :=
  ⟨(c9_register_not_idempotent_resolution_stable 2 dirProj stateDup (by decide)
      (by decide)).1,
    (c9_register_not_idempotent_resolution_stable 2 dirProj stateDup (by decide)
      (by decide)).2 fsProj dirTmp⟩

end RunApp
